import Mathlib

/-!
Verification of the server-timing middleware and example-program shutdown
logic of the splunk-otel-go repository.

The `splunkhttp` package implementation is modelled from the repository
specification (the repository snapshot contains only its test file and its
caller `example/main.go`); the example program's control flow is embedded
from `example/main.go` directly.
-/

namespace SplunkOtel

/-- Modelled from the spec: a span context is "an opaque identifier pair
(trace ID, span ID) plus flags, produced by the tracing SDK".  The trace ID
is a 128-bit identifier, the span ID a 64-bit identifier; both are carried
here as natural numbers whose low 32 (resp. 16) hex digits are rendered. -/
structure SpanContext where
  traceID : Nat
  spanID : Nat
deriving DecidableEq, Repr

/-- Modelled from the spec: a span context is valid when it carries a
"valid non-zero trace ID" (and span ID); an all-zero identifier is
invalid, mirroring the W3C / OpenTelemetry validity rule. -/
def SpanContext.isValid (sc : SpanContext) : Bool :=
  decide (sc.traceID ≠ 0) && decide (sc.spanID ≠ 0)

/-- Lowercase hex digit character for a nibble value `n < 16`
(garbage-in maps to '0', which is still a hex digit). -/
def hexChar (n : Nat) : Char :=
  if n < 10 then Char.ofNat (48 + n)
  else if n < 16 then Char.ofNat (87 + n)
  else '0'

/-- Big-endian fixed-width hex digits of `n`: exactly `w` characters,
most significant nibble first. -/
def hexPadAux : Nat → Nat → List Char
  | 0, _ => []
  | w + 1, n => hexPadAux w (n / 16) ++ [hexChar (n % 16)]

/-- Fixed-width lowercase hex rendering of `n` as a string of `w` digits. -/
def hexPad (w n : Nat) : String :=
  String.mk (hexPadAux w n)

/-- Decidable check that a character is a lowercase hex digit `[0-9a-f]`. -/
def isHexDigitLower (c : Char) : Bool :=
  (('0' ≤ c) && (c ≤ '9')) || (('a' ≤ c) && (c ≤ 'f'))

/-- Modelled from the spec: the `Server-Timing` response-header value,
"a fixed description token and the hex-encoded trace ID plus sampling
flag, matching the traceparent header value grammar's ID/flags segment":
`traceparent;desc="00-<32-hex-trace-id>-<16-hex-span-id>-01"`. -/
def serverTimingHeaderValue (sc : SpanContext) : String :=
  "traceparent;desc=\"00-" ++ hexPad 32 sc.traceID ++ "-" ++
    hexPad 16 sc.spanID ++ "-01\""

/-- Modelled from the spec: request-scoped context, carrying (at most) the
span context attached by an upstream tracing middleware. -/
structure Context where
  spanContext : Option SpanContext
deriving DecidableEq, Repr

/-- Modelled from the spec: an inbound HTTP request — method, URL, headers,
body, and the request-scoped context. -/
structure Request where
  method : String
  url : String
  headers : List (String × String)
  body : String
  ctx : Context
deriving DecidableEq, Repr

/-- Modelled from the spec: an HTTP response under construction — status
code, body, and "a mapping from header name to value list" represented as
an ordered list of name/value pairs (`Header.Add` appends a pair). -/
structure Response where
  statusCode : Nat
  headers : List (String × String)
  body : String
deriving DecidableEq, Repr

/-- Number of header entries of `r` whose name is `name`. -/
def countHeader (r : Response) (name : String) : Nat :=
  (r.headers.filter (fun p => p.1 == name)).length

/-- An empty 200 response, the state handed to a handler for a fresh
request before anything is written. -/
def emptyResponse : Response :=
  { statusCode := 200, headers := [], body := "" }

/-- A handler consumes a request and the current response state and
returns the updated response state (the shallow form of Go's
`ServeHTTP(w, r)` mutation of `w`). -/
def Handler : Type :=
  Request → Response → Response

/-- Modelled from the spec: appends the `Server-Timing` header carrying
the trace ID and the `Access-Control-Expose-Headers: Server-Timing`
header to a response, in the order the spec lists them. -/
def addTimingHeaders (sc : SpanContext) (r : Response) : Response :=
  { r with headers := r.headers ++
      [("Server-Timing", serverTimingHeaderValue sc),
       ("Access-Control-Expose-Headers", "Server-Timing")] }

/-- Modelled from the spec: the configuration aggregate with fields
`enableServerTiming : bool` (default false) and
`tracerProviderOverride : optional object` (default absent). -/
structure Config where
  enableServerTiming : Bool
  tracerProviderOverride : Option Nat
deriving DecidableEq, Repr

/-- Modelled from the spec: the default configuration is "server-timing
disabled, default tracer provider". -/
def defaultConfig : Config :=
  { enableServerTiming := false, tracerProviderOverride := none }

/-- Modelled from the spec: "each option is a pure function that mutates
one field of the configuration value". -/
def ConfigOption : Type :=
  Config → Config

/-- Modelled from the spec: the option toggling the server-timing flag
(`WithServerTiming` in the test file). -/
def WithServerTiming (b : Bool) : ConfigOption :=
  fun c => { c with enableServerTiming := b }

/-- Modelled from the spec: the option overriding the tracer provider. -/
def WithTracerProvider (tp : Nat) : ConfigOption :=
  fun c => { c with tracerProviderOverride := some tp }

/-- Modelled from the spec: functional-options builder — fold the supplied
options over the default configuration, with "no validation beyond type
safety". -/
def newConfig (opts : List ConfigOption) : Config :=
  opts.foldl (fun c o => o c) defaultConfig

/-- Observable events of one decorated-handler invocation: the decorator
calling the wrapped handler with a request, the wrapped handler returning,
and one response-header mutation adding a batch of headers. -/
inductive Event where
  | callHandler (req : Request)
  | handlerReturned
  | mutatedHeaders (added : List (String × String))
deriving DecidableEq, Repr

/-- Discriminator: is this event a call of the wrapped handler? -/
def Event.isCall : Event → Bool
  | .callHandler _ => true
  | _ => false

/-- Discriminator: is this event the wrapped handler's return? -/
def Event.isReturn : Event → Bool
  | .handlerReturned => true
  | _ => false

/-- Discriminator: is this event a response-header mutation? -/
def Event.isMutation : Event → Bool
  | .mutatedHeaders _ => true
  | _ => false

/-- Modelled from the spec: one invocation of the decorated handler H',
instrumented with its event trace.  "Invoking H' on a request forwards the
request unmodified to H, and — after H returns — if `C.enableServerTiming`
is true, computes the current span's trace ID from the request's context
and, if a valid non-zero trace ID is present, appends" the two response
headers; otherwise nothing is added and no error is raised. -/
def runDecorated (cfg : Config) (h : Handler) (req : Request)
    (resp : Response) : Response × List Event :=
  let resp1 := h req resp
  let pre := [Event.callHandler req, Event.handlerReturned]
  if cfg.enableServerTiming then
    match req.ctx.spanContext with
    | some sc =>
      if sc.isValid then
        (addTimingHeaders sc resp1,
         pre ++ [Event.mutatedHeaders
            [("Server-Timing", serverTimingHeaderValue sc),
             ("Access-Control-Expose-Headers", "Server-Timing")]])
      else (resp1, pre)
    | none => (resp1, pre)
  else (resp1, pre)

/-- Modelled from the spec: the decorated handler H' produced from a
configuration and a wrapped handler (the response component of the traced
run). -/
def wrappedHandler (cfg : Config) (h : Handler) : Handler :=
  fun req resp => (runDecorated cfg h req resp).1

/-- Modelled from the spec and the test file's call shape
`NewHandler(handler, "server", opts...)`: build the configuration from the
options and decorate the handler with it.  The operation name is consumed
by the external otelhttp layer and does not affect header emission. -/
def NewHandler (h : Handler) (_operation : String)
    (opts : List ConfigOption) : Handler :=
  wrappedHandler (newConfig opts) h

/-- Modelled from the spec: a sequence of independent requests handled by
the same decorated handler, each starting from a fresh response object (a
new `http.ResponseWriter` per request in Go's request lifecycle). -/
def handleSequence (cfg : Config) (h : Handler) (reqs : List Request) :
    List Response :=
  reqs.map (fun r => wrappedHandler cfg h r emptyResponse)

/-- Every event strictly before the first `handlerReturned` event is not a
header mutation: header mutation happens only after the wrapped handler
has returned. -/
def mutationsOnlyAfterReturn (evs : List Event) : Bool :=
  (evs.takeWhile (fun e => !e.isReturn)).all (fun e => !e.isMutation)

/-- The error results the environment hands to one run of
`example/main.go`: `runErr` is what `distro.Run` returns (line 49),
`sdkShutdownErr` what `sdk.Shutdown` returns (line 54), `srvShutdownErr`
what `srv.Shutdown` returns (line 86), and `serveErr` the value the serve
goroutine sends on `errCh` (lines 73-79; `nil` when `ListenAndServe`
returned `http.ErrServerClosed` or no error). -/
structure Env where
  runErr : Option String
  sdkShutdownErr : Option String
  srvShutdownErr : Option String
  serveErr : Option String
deriving DecidableEq, Repr

/-- Observable outcome of one run of `example/main.go`: the process exit
status, the messages written via `log.Println`, whether a Go panic report
reached stderr, and whether the HTTP handler chain was installed. -/
structure Outcome where
  exitStatus : Nat
  logged : List String
  panicReported : Bool
  handlerInstalled : Bool
deriving DecidableEq, Repr

/-- Embedding of `main` from `example/main.go`.

Control flow of the source, in order: `exitCode := 0`;
`defer os.Exit(exitCode)` (lines 40-42); `defer stop()` (line 46);
`sdk, err := distro.Run()`, and on error `panic(err)` (lines 49-52);
`defer` the `sdk.Shutdown` check (lines 53-58); install the handler chain
and start the server (lines 61-79); `call` the server (line 84); then the
`srv.Shutdown` check with early return (lines 86-90) and the `errCh`
drain with early return (lines 91-95).

Go semantics encoded here: when `panic(err)` fires at line 51, the
deferred functions registered so far run in LIFO order — `stop()`, then
the closure calling `os.Exit(exitCode)` with `exitCode` still `0`.
`os.Exit` terminates the process immediately, before the runtime prints
the pending panic report, so the process exits with status 0 and no
message.  On the normal path no panic occurs, the deferred
`sdk.Shutdown` check runs after `main`'s body returns (possibly via the
early `return`s), and the deferred `os.Exit` then reads the final
`exitCode`. -/
def mainRun (env : Env) : Outcome :=
  match env.runErr with
  | some _ =>
    { exitStatus := 0, logged := [], panicReported := false,
      handlerInstalled := false }
  | none =>
    let bodyResult : Nat × List String :=
      match env.srvShutdownErr with
      | some e => (1, [e])
      | none =>
        match env.serveErr with
        | some e => (1, [e])
        | none => (0, [])
    let afterSdkDefer : Nat × List String :=
      match env.sdkShutdownErr with
      | some e => (1, bodyResult.2 ++ [e])
      | none => bodyResult
    { exitStatus := afterSdkDefer.1, logged := afterSdkDefer.2,
      panicReported := false, handlerInstalled := true }

/-! Helper lemmas about the hex rendering. -/

lemma isHexDigitLower_hexChar (n : Nat) : isHexDigitLower (hexChar n) = true := by
  rcases Nat.lt_or_ge n 16 with h | h
  · interval_cases n <;> decide
  · have h10 : ¬ n < 10 := by omega
    have h16 : ¬ n < 16 := by omega
    simp [hexChar, h10, h16, isHexDigitLower]

lemma hexPadAux_length (w n : Nat) : (hexPadAux w n).length = w := by
  induction w generalizing n with
  | zero => rfl
  | succ w ih => simp [hexPadAux, ih]

lemma hexPadAux_hex (w n : Nat) :
    ∀ c ∈ hexPadAux w n, isHexDigitLower c = true := by
  induction w generalizing n with
  | zero => simp [hexPadAux]
  | succ w ih =>
    intro c hc
    rcases List.mem_append.mp hc with hl | hr
    · exact ih _ c hl
    · rcases List.mem_singleton.mp hr with rfl
      exact isHexDigitLower_hexChar _

/-! Claim theorems. -/

/-- C5: wrapping a handler with no configuration options yields the
default configuration — server-timing disabled and no tracer-provider
override — and the decorated handler is the one built from that default
configuration; the options builder performs no validation (it is a total
fold over the option functions). -/
theorem newHandler_default_config (h : Handler) (op : String)
    (req : Request) (resp : Response) :
    newConfig [] = defaultConfig ∧
    (newConfig []).enableServerTiming = false ∧
    (newConfig []).tracerProviderOverride = none ∧
    NewHandler h op [] req resp = wrappedHandler defaultConfig h req resp :=
  ⟨rfl, rfl, rfl, rfl⟩

/-- C6: two-run independence — handling two independent requests with the
same decorated handler produces, for each request, exactly the response
the decorator produces for that request alone from a fresh response
object; in particular the second request's response is identical whether
or not the first request was handled before it, so no header state leaks
between requests. -/
theorem decorator_two_run_independence (cfg : Config) (h : Handler)
    (r1 r2 : Request) :
    handleSequence cfg h [r1, r2] =
      [wrappedHandler cfg h r1 emptyResponse,
       wrappedHandler cfg h r2 emptyResponse] ∧
    (handleSequence cfg h [r1, r2]).drop 1 = handleSequence cfg h [r2] :=
  ⟨rfl, rfl⟩

/-- C10: the decorated handler built by `NewHandler` never changes the
wrapped handler's response status code, for every configuration option
list (in particular with server timing disabled) and every request. -/
theorem newHandler_preserves_status (h : Handler) (op : String)
    (opts : List ConfigOption) (req : Request) (resp : Response) :
    (NewHandler h op opts req resp).statusCode = (h req resp).statusCode := by
  unfold NewHandler wrappedHandler runDecorated
  cases (newConfig opts).enableServerTiming <;>
    cases hc : req.ctx.spanContext <;>
    simp [addTimingHeaders]
  split <;> rfl

/-- C2: when `enableServerTiming` is false the decorated handler returns
exactly the wrapped handler's response — no `Server-Timing` and no
`Access-Control-Expose-Headers` header is added — regardless of the span
context carried by the request. -/
theorem disabled_adds_no_headers (cfg : Config) (h : Handler)
    (req : Request) (resp : Response)
    (hd : cfg.enableServerTiming = false) :
    wrappedHandler cfg h req resp = h req resp ∧
    countHeader (wrappedHandler cfg h req resp) "Server-Timing" =
      countHeader (h req resp) "Server-Timing" ∧
    countHeader (wrappedHandler cfg h req resp)
        "Access-Control-Expose-Headers" =
      countHeader (h req resp) "Access-Control-Expose-Headers" := by
  have heq : wrappedHandler cfg h req resp = h req resp := by
    unfold wrappedHandler runDecorated
    simp [hd]
  exact ⟨heq, by rw [heq], by rw [heq]⟩

/-- Witness for C2 at a concrete disabled configuration, request with a
valid span context, and identity handler. -/
theorem disabled_adds_no_headers_witness :
    wrappedHandler { enableServerTiming := false, tracerProviderOverride := none }
      (fun _ r => r)
      { method := "GET", url := "/hello", headers := [], body := "",
        ctx := { spanContext := some { traceID := 1, spanID := 2 } } }
      emptyResponse = emptyResponse :=
  (disabled_adds_no_headers
    { enableServerTiming := false, tracerProviderOverride := none }
    (fun _ r => r)
    { method := "GET", url := "/hello", headers := [], body := "",
      ctx := { spanContext := some { traceID := 1, spanID := 2 } } }
    emptyResponse rfl).1

/-- C3: when the request carries no valid span context — either no span
context at all (no tracing middleware upstream) or an invalid one — the
decorated handler returns exactly the wrapped handler's response: no
headers are added, and no error value exists anywhere in the model (the
decorator is a total function). -/
theorem no_valid_span_no_headers (cfg : Config) (h : Handler)
    (req : Request) (resp : Response)
    (hspan : ∀ sc, req.ctx.spanContext = some sc → sc.isValid = false) :
    wrappedHandler cfg h req resp = h req resp := by
  unfold wrappedHandler runDecorated
  cases cfg.enableServerTiming with
  | false => simp
  | true =>
    cases hc : req.ctx.spanContext with
    | none => simp [hc]
    | some sc => simp [hc, hspan sc hc]

/-- Witness for C3: tracing enabled but no span context in the request's
context — the identity handler's response comes back untouched. -/
theorem no_valid_span_no_headers_witness :
    wrappedHandler { enableServerTiming := true, tracerProviderOverride := none }
      (fun _ r => r)
      { method := "GET", url := "/hello", headers := [], body := "",
        ctx := { spanContext := none } }
      emptyResponse = emptyResponse :=
  no_valid_span_no_headers
    { enableServerTiming := true, tracerProviderOverride := none }
    (fun _ r => r)
    { method := "GET", url := "/hello", headers := [], body := "",
      ctx := { spanContext := none } }
    emptyResponse (fun sc hsc => by cases hsc)

lemma mutationsOnlyAfterReturn_pair (r : Request) :
    mutationsOnlyAfterReturn [Event.callHandler r, Event.handlerReturned] =
      true := rfl

lemma mutationsOnlyAfterReturn_mut (r : Request)
    (l : List (String × String)) :
    mutationsOnlyAfterReturn
      [Event.callHandler r, Event.handlerReturned, Event.mutatedHeaders l] =
      true := rfl

/-- C4: in every decorated-handler invocation the event trace shows the
header emission happening only after the wrapped handler has returned —
no header-mutation event precedes the `handlerReturned` event, which is
always present — and the decorator performs at most one response-header
mutation per request. -/
theorem headers_emitted_after_handler (cfg : Config) (h : Handler)
    (req : Request) (resp : Response) :
    mutationsOnlyAfterReturn (runDecorated cfg h req resp).2 = true ∧
    Event.handlerReturned ∈ (runDecorated cfg h req resp).2 ∧
    ((runDecorated cfg h req resp).2.filter Event.isMutation).length ≤ 1 := by
  unfold runDecorated
  cases cfg.enableServerTiming with
  | false =>
    exact ⟨rfl, by simp, by simp [Event.isMutation]⟩
  | true =>
    cases hc : req.ctx.spanContext with
    | none => exact ⟨rfl, by simp [hc], by simp [hc, Event.isMutation]⟩
    | some sc =>
      cases hv : sc.isValid with
      | false => exact ⟨by simp [hc, hv, mutationsOnlyAfterReturn_pair],
          by simp [hc, hv], by simp [hc, hv, Event.isMutation]⟩
      | true => exact ⟨by simp [hc, hv, mutationsOnlyAfterReturn_mut],
          by simp [hc, hv], by simp [hc, hv, Event.isMutation]⟩

/-- C9: the decorator calls the wrapped handler exactly once (no
retries), with exactly the request it received (same method, URL,
headers, body and context), and its only effect beyond the wrapped
handler's is appending response headers: status code and body of the
wrapped handler's response are preserved and its header list is only
extended at the end. -/
theorem decorator_forwards_request_frame (cfg : Config) (h : Handler)
    (req : Request) (resp : Response) :
    ((runDecorated cfg h req resp).2.filter Event.isCall).length = 1 ∧
    Event.callHandler req ∈ (runDecorated cfg h req resp).2 ∧
    (∀ r, Event.callHandler r ∈ (runDecorated cfg h req resp).2 →
      r = req) ∧
    (runDecorated cfg h req resp).1.statusCode = (h req resp).statusCode ∧
    (runDecorated cfg h req resp).1.body = (h req resp).body ∧
    ∃ extra, (runDecorated cfg h req resp).1.headers =
      (h req resp).headers ++ extra := by
  unfold runDecorated
  cases cfg.enableServerTiming with
  | false =>
    refine ⟨by simp [Event.isCall], by simp, ?_, rfl, rfl, ⟨[], by simp⟩⟩
    intro r hr
    simp at hr
    exact hr
  | true =>
    cases hc : req.ctx.spanContext with
    | none =>
      refine ⟨by simp [hc, Event.isCall], by simp [hc], ?_, by simp [hc],
        by simp [hc], ⟨[], by simp [hc]⟩⟩
      intro r hr
      simp [hc] at hr
      exact hr
    | some sc =>
      cases hv : sc.isValid with
      | false =>
        refine ⟨by simp [hc, hv, Event.isCall], by simp [hc, hv], ?_,
          by simp [hc, hv], by simp [hc, hv], ⟨[], by simp [hc, hv]⟩⟩
        intro r hr
        simp [hc, hv] at hr
        exact hr
      | true =>
        refine ⟨by simp [hc, hv, Event.isCall], by simp [hc, hv], ?_,
          by simp [hc, hv, addTimingHeaders],
          by simp [hc, hv, addTimingHeaders],
          ⟨[("Server-Timing", serverTimingHeaderValue sc),
            ("Access-Control-Expose-Headers", "Server-Timing")],
           by simp [hc, hv, addTimingHeaders]⟩⟩
        intro r hr
        simp [hc, hv] at hr
        exact hr

/-- C1: with `enableServerTiming` true and a valid span context on the
request (and a wrapped handler that emits no `Server-Timing` header of
its own), the decorated response contains exactly one `Server-Timing`
header; its value is the traceparent description built from the
request's trace and span IDs, rendered as exactly 32 (resp. 16)
lowercase hex digits; `Access-Control-Expose-Headers: Server-Timing` is
present; and for trace ID `4bf92f3577b34da6a3ce929d0e0e4736` with span
ID `00f067aa0ba902b7` the value is exactly
`traceparent;desc="00-4bf92f3577b34da6a3ce929d0e0e4736-00f067aa0ba902b7-01"`. -/
theorem enabled_valid_span_emits_header (cfg : Config) (h : Handler)
    (req : Request) (resp : Response) (sc : SpanContext)
    (hemit : cfg.enableServerTiming = true)
    (hctx : req.ctx.spanContext = some sc)
    (hvalid : sc.isValid = true)
    (hclean : countHeader (h req resp) "Server-Timing" = 0) :
    countHeader (wrappedHandler cfg h req resp) "Server-Timing" = 1 ∧
    (∀ v, ("Server-Timing", v) ∈ (wrappedHandler cfg h req resp).headers →
      v = serverTimingHeaderValue sc) ∧
    serverTimingHeaderValue sc =
      "traceparent;desc=\"00-" ++ hexPad 32 sc.traceID ++ "-" ++
        hexPad 16 sc.spanID ++ "-01\"" ∧
    (hexPadAux 32 sc.traceID).length = 32 ∧
    (hexPadAux 16 sc.spanID).length = 16 ∧
    (∀ c ∈ hexPadAux 32 sc.traceID, isHexDigitLower c = true) ∧
    (∀ c ∈ hexPadAux 16 sc.spanID, isHexDigitLower c = true) ∧
    ("Access-Control-Expose-Headers", "Server-Timing") ∈
      (wrappedHandler cfg h req resp).headers ∧
    (sc.traceID = 0x4bf92f3577b34da6a3ce929d0e0e4736 →
      sc.spanID = 0x00f067aa0ba902b7 →
      serverTimingHeaderValue sc =
        "traceparent;desc=\"00-4bf92f3577b34da6a3ce929d0e0e4736-00f067aa0ba902b7-01\"") := by
  have hout : wrappedHandler cfg h req resp =
      addTimingHeaders sc (h req resp) := by
    unfold wrappedHandler runDecorated
    simp [hemit, hctx, hvalid]
  have hcleanF : List.filter (fun p => p.1 == "Server-Timing")
      (h req resp).headers = [] :=
    List.length_eq_zero.mp hclean
  have hnone : ∀ v, ("Server-Timing", v) ∉ (h req resp).headers := by
    intro v hv
    have hmem : ("Server-Timing", v) ∈ List.filter
        (fun p => p.1 == "Server-Timing") (h req resp).headers :=
      List.mem_filter.mpr ⟨hv, by simp⟩
    rw [hcleanF] at hmem
    exact absurd hmem (List.not_mem_nil _)
  refine ⟨?_, ?_, rfl, hexPadAux_length 32 _, hexPadAux_length 16 _,
    hexPadAux_hex 32 _, hexPadAux_hex 16 _, ?_, ?_⟩
  · rw [hout]
    unfold countHeader addTimingHeaders
    rw [List.filter_append]
    simp [hcleanF]
  · intro v hv
    rw [hout] at hv
    unfold addTimingHeaders at hv
    rcases List.mem_append.mp hv with hl | hr
    · exact absurd hl (hnone v)
    · simp at hr
      exact hr
  · rw [hout]
    unfold addTimingHeaders
    simp
  · intro h1 h2
    unfold serverTimingHeaderValue
    rw [h1, h2]
    decide

/-- Witness for C1 at the spec's end-to-end trace and span IDs: the
enabled decorator over the identity handler yields exactly one
`Server-Timing` header and the exact literal header value. -/
theorem enabled_valid_span_emits_header_witness :
    countHeader
      (wrappedHandler
        { enableServerTiming := true, tracerProviderOverride := none }
        (fun _ r => r)
        { method := "GET", url := "/hello", headers := [], body := "",
          ctx := ⟨some ⟨0x4bf92f3577b34da6a3ce929d0e0e4736,
            0x00f067aa0ba902b7⟩⟩ }
        emptyResponse) "Server-Timing" = 1 ∧
    serverTimingHeaderValue
      ⟨0x4bf92f3577b34da6a3ce929d0e0e4736, 0x00f067aa0ba902b7⟩ =
      "traceparent;desc=\"00-4bf92f3577b34da6a3ce929d0e0e4736-00f067aa0ba902b7-01\"" := by
  have h := enabled_valid_span_emits_header
    { enableServerTiming := true, tracerProviderOverride := none }
    (fun _ r => r)
    { method := "GET", url := "/hello", headers := [], body := "",
      ctx := ⟨some ⟨0x4bf92f3577b34da6a3ce929d0e0e4736,
        0x00f067aa0ba902b7⟩⟩ }
    emptyResponse
    ⟨0x4bf92f3577b34da6a3ce929d0e0e4736, 0x00f067aa0ba902b7⟩
    rfl rfl (by decide) rfl
  exact ⟨h.1, h.2.2.2.2.2.2.2.2 rfl rfl⟩

/-- C7: in a run of `example/main.go` where bootstrap succeeded, every
shutdown error is logged and forces a non-zero exit status — an error
from the SDK shutdown handle, from `srv.Shutdown`, or from draining the
serve goroutine's result after a successful `srv.Shutdown` — and when
all shutdown steps succeed the process exits with status zero. -/
theorem main_shutdown_error_exit_status (env : Env)
    (hrun : env.runErr = none) :
    ((env.sdkShutdownErr = none ∧ env.srvShutdownErr = none ∧
        env.serveErr = none) → (mainRun env).exitStatus = 0) ∧
    (∀ e, env.sdkShutdownErr = some e →
      e ∈ (mainRun env).logged ∧ (mainRun env).exitStatus ≠ 0) ∧
    (∀ e, env.srvShutdownErr = some e →
      e ∈ (mainRun env).logged ∧ (mainRun env).exitStatus ≠ 0) ∧
    (∀ e, env.srvShutdownErr = none → env.serveErr = some e →
      e ∈ (mainRun env).logged ∧ (mainRun env).exitStatus ≠ 0) := by
  obtain ⟨r, sdk, srv, serve⟩ := env
  simp only at hrun
  subst hrun
  rcases sdk with _ | esdk <;> rcases srv with _ | esrv <;>
    rcases serve with _ | eserve <;> simp [mainRun]

/-- Witness for C7: bootstrap succeeded, both the SDK shutdown and the
server shutdown fail — both errors are logged and the exit status is
non-zero. -/
theorem main_shutdown_error_exit_status_witness :
    "sdk boom" ∈ (mainRun ⟨none, some "sdk boom", some "srv boom", none⟩).logged ∧
    "srv boom" ∈ (mainRun ⟨none, some "sdk boom", some "srv boom", none⟩).logged ∧
    (mainRun ⟨none, some "sdk boom", some "srv boom", none⟩).exitStatus ≠ 0 := by
  have h := main_shutdown_error_exit_status
    ⟨none, some "sdk boom", some "srv boom", none⟩ rfl
  exact ⟨(h.2.1 "sdk boom" rfl).1, (h.2.2.1 "srv boom" rfl).1,
    (h.2.1 "sdk boom" rfl).2⟩

/-- C8 evidence: when `distro.Run` fails, `main` panics at line 51, but
the deferred `os.Exit(exitCode)` from lines 40-42 runs during the panic
unwinding with `exitCode` still 0 and terminates the process before the
runtime prints the panic report — so the process exits with status 0,
logs nothing, prints no panic message, and never installs the handler. -/
theorem main_bootstrap_failure_silent_exit (e : String) :
    mainRun ⟨some e, none, none, none⟩ =
      { exitStatus := 0, logged := [], panicReported := false,
        handlerInstalled := false } := rfl

end SplunkOtel
